import Mathlib

/-!
Verification development for the `Model` class of xlearn
(`src/data/model_parameters.cc`): the fixed-layout parameter store for
linear / factorization-machine (fm) / field-aware factorization-machine
(ffm) models, its slot-count calculation, buffer initialization, and the
binary checkpoint codec (`Serialize` / `Deserialize`).

Shallow embedding conventions:
* Dimensions (`index_t`) are modelled as `Nat`.  Modelled from the spec:
  the `index_t` typedef lives in a header that is not part of the supplied
  unit; the spec describes the dimensions as non-negative integers.
* `real_t` slot values are modelled symbolically by `Val`: the code only
  ever stores `0`, `1.0`, or `coef * dis(generator)` where
  `coef = 1/sqrt(num_K_)` and `dis` draws from a default-constructed
  `std::default_random_engine`.  A random draw is represented as
  `Val.rand seed num_K draw` recording the engine seed, the `num_K` that
  scales the draw, and the position of the draw in the engine's stream;
  this keeps every definition executable while preserving exactly the
  information the layout / determinism claims are about.
* Process-fatal paths (`CHECK` failures, `LOG(FATAL)`) are modelled as
  typed errors of `ModelError`, so that theorems can talk about which
  inputs are rejected and how.
-/

namespace XLearn

/-- Symbolic value of one `real_t` slot of the parameter buffer.
`rand seed numK draw` stands for `(1/sqrt(numK)) * dis(generator)` where
`generator` was seeded with `seed` and `draw` is the index of this draw in
the generator's stream; `uninit` stands for allocated-but-unwritten memory
(the `Initialize_w(false)` path, whose result is always overwritten by
`deserialize_w` before use). -/
inductive Val
  | zero
  | one
  | rand (seed : Nat) (numK : Nat) (draw : Nat)
  | uninit
deriving DecidableEq

/-- Typed rendering of the failure modes of the source: `EmptyLabel` for the
`CHECK(!score_func.empty())` / `CHECK(!loss_func.empty())` aborts,
`InvalidDimensions` for the `CHECK_GT(num_feature, 0)` abort,
`UnknownVariant` for the `LOG(FATAL) << "Unknow score function"` aborts and
`IOError` for file-shape problems on the read path. -/
inductive ModelError
  | EmptyLabel
  | InvalidDimensions
  | UnknownVariant
  | IOError
deriving DecidableEq

/-- The `Model` entity: metadata fields and the flat parameter buffer
(`param_w_` of length `param_num_w_`). -/
structure Model where
  score_func : String
  loss_func : String
  num_feat : Nat
  num_field : Nat
  num_K : Nat
  param_num_w : Nat
  param_w : List Val
deriving DecidableEq

/-- Modelled from the spec: `ALIGN_WIDTH`, the SIMD lane count used by the
ffm layout (`kAlign` in the missing header; `kAlignByte = 16` bytes over
4-byte `real_t` gives 4 lanes, the value the spec calls "commonly 4"). -/
def kAlign : Nat := 4

/-- Modelled from the spec / C++ semantics: a default-constructed
`std::default_random_engine` always starts from the same fixed default
seed. -/
def defaultEngineSeed : Nat := 1

/-- Seed of the engine built by `std::default_random_engine generator;`
(line 97): default construction ignores whatever entropy the environment
could offer and always uses the fixed default seed. -/
def seedOfEngine : Nat → Nat := fun _ => defaultEngineSeed

/-- Modelled from the spec: `get_aligned_k()` of the missing header —
`roundUpToAlignment(factors, ALIGN_WIDTH)`, the factor count rounded up to
the next multiple of `kAlign`. -/
def get_aligned_k (num_K : Nat) : Nat := ((num_K + kAlign - 1) / kAlign) * kAlign

/-- Buffer written by the `linear` branch of `Initialize_w` (lines
101-105): pairs `w[i] = 0`, `w[i+1] = 1.0` for `i = 0, 2, ...`. -/
def linearInit (param_num : Nat) : List Val :=
  (List.range (param_num / 2)).flatMap (fun _ => [Val.zero, Val.one])

/-- Buffer written by the `fm` branch of `Initialize_w` (lines 106-111):
pairs `w[i] = coef * dis(generator)`, `w[i+1] = 1.0`; the pair at index
`i` consumes the `i`-th draw of the generator. -/
def fmInit (seed num_K param_num : Nat) : List Val :=
  (List.range (param_num / 2)).flatMap (fun i => [Val.rand seed num_K i, Val.one])

/-- Weight written by the ffm branch at factor position `d` of the
`(feature, field)` block number `b`: `w[0] = (d < num_K_) ? coef *
dis(generator) : 0.0` (line 120).  The ternary draws from the generator
only when `d < num_K_`, so block `b` consumes draws `b*num_K .. b*num_K +
num_K - 1`, and position `d` gets draw `b * num_K + d`. -/
def ffmWeightVal (seed num_K b d : Nat) : Val :=
  if d < num_K then Val.rand seed num_K (b * num_K + d) else Val.zero

/-- One `(feature, field)` block of the ffm buffer (lines 116-126): for each
aligned chunk `c` the inner `s`-loop writes `kAlign` weights at `w[0]` and
their `kAlign` accumulators `1.0` at `w[kAlign]`, then skips the
accumulator group (`w += kAlign`). -/
def ffmBlock (seed num_K b : Nat) : List Val :=
  (List.range (get_aligned_k num_K / kAlign)).flatMap (fun c =>
    ((List.range kAlign).map (fun s => ffmWeightVal seed num_K b (c * kAlign + s))) ++
    ((List.range kAlign).map (fun _ => Val.one)))

/-- Buffer written by the ffm branch of `Initialize_w` (lines 112-126): the
`j`-loop over features and `f`-loop over fields lay the blocks out in row
order, block number `b = j * num_field + f`. -/
def ffmInit (seed num_K num_feat num_field : Nat) : List Val :=
  (List.range (num_feat * num_field)).flatMap (ffmBlock seed num_K)

/-- `Model::Initialize_w` (lines 70-131).  The allocation dispatch (malloc
for linear/fm, `posix_memalign` for ffm, `LOG(FATAL)` otherwise) is
modelled as one recognized-variant test producing `param_num_w` slots —
address alignment is a property of machine memory outside the value model.
`std::default_random_engine generator;` on line 97 is default-constructed,
hence seeded with `seedOfEngine env` = the fixed default seed, whatever
entropy `env` the environment holds. -/
def Model.Initialize_w (env : Nat) (m : Model) (set_value : Bool) :
    Except ModelError Model :=
  if m.score_func = "linear" ∨ m.score_func = "fm" ∨ m.score_func = "ffm" then
    let allocated : Model := { m with param_w := List.replicate m.param_num_w Val.uninit }
    let seed := seedOfEngine env
    if set_value then
      if m.score_func = "linear" then
        Except.ok { allocated with param_w := linearInit m.param_num_w }
      else if m.score_func = "fm" then
        Except.ok { allocated with param_w := fmInit seed m.num_K m.param_num_w }
      else
        Except.ok { allocated with param_w := ffmInit seed m.num_K m.num_feat m.num_field }
    else
      Except.ok allocated
  else Except.error ModelError.UnknownVariant

/-- The slot-count calculation of `Model::Initialize` (lines 52-63):
`param_num_w_ = num_feature * 2` for linear, `num_feature * num_K * 2` for
fm, `num_feature * get_aligned_k() * num_field * 2` for ffm, `LOG(FATAL)`
(here `none`) for an unrecognized score function. -/
def slot_count (score_func : String) (num_feature num_field num_K : Nat) : Option Nat :=
  if score_func = "linear" then some (num_feature * 2)
  else if score_func = "fm" then some (num_feature * num_K * 2)
  else if score_func = "ffm" then some (num_feature * get_aligned_k num_K * num_field * 2)
  else none

/-- `Model::Initialize` (lines 37-65): the fresh-construction path.  The
`CHECK` macros abort on an empty label or `num_feature == 0`
(`CHECK_GE(num_field, 0)` and `CHECK_GE(num_K, 0)` always hold for
non-negative dimensions); then the slot count is computed and
`Initialize_w(true)` fills the buffer.  `env` is the entropy available in
the process environment, threaded to `Initialize_w` where the random
engine is constructed. -/
def Model.Init (env : Nat) (score_func loss_func : String)
    (num_feature num_field num_K : Nat) : Except ModelError Model :=
  if score_func = "" then Except.error ModelError.EmptyLabel
  else if loss_func = "" then Except.error ModelError.EmptyLabel
  else if num_feature = 0 then Except.error ModelError.InvalidDimensions
  else
    match slot_count score_func num_feature num_field num_K with
    | some pnum =>
        Model.Initialize_w env
          { score_func := score_func, loss_func := loss_func,
            num_feat := num_feature, num_field := num_field, num_K := num_K,
            param_num_w := pnum, param_w := [] } true
    | none => Except.error ModelError.UnknownVariant

/-- One item of the checkpoint byte stream: a length-prefixed string, a
fixed-width integer, or one `real_t` value. -/
inductive FileTok
  | s (v : String)
  | n (v : Nat)
  | r (v : Val)
deriving DecidableEq

/-- `Model::serialize_w` (lines 184-189): write `param_num_w_`, then the
`param_num_w_` buffer values verbatim. -/
def Model.serialize_w (m : Model) : List FileTok :=
  FileTok.n m.param_num_w :: m.param_w.map FileTok.r

/-- `Model::Serialize` (lines 144-160): score label, loss label, the three
dimension fields, then `serialize_w`. -/
def Model.Serialize (m : Model) : List FileTok :=
  FileTok.s m.score_func :: FileTok.s m.loss_func :: FileTok.n m.num_feat ::
    FileTok.n m.num_field :: FileTok.n m.num_K :: Model.serialize_w m

/-- Read exactly `n` `real_t` values from the stream
(`ReadDataFromDisk(file, (char*)param_w_, sizeof(real_t)*param_num_w_)`),
returning them with the unread remainder. -/
def readVals : Nat → List FileTok → Option (List Val × List FileTok)
  | 0, rest => some ([], rest)
  | n + 1, FileTok.r v :: rest =>
      match readVals n rest with
      | some (vs, rest2) => some (v :: vs, rest2)
      | none => none
  | _ + 1, _ => none

/-- `Model::deserialize_w` (lines 192-199): read the stored `param_num_w_`,
allocate through `Initialize_w(false)` — which does NOT set values and
fatals on an unrecognized score label — then read exactly `param_num_w_`
values into the buffer.  Nothing is recomputed or cross-checked against
the dimension fields. -/
def Model.deserialize_w (env : Nat) (m : Model) (toks : List FileTok) :
    Except ModelError Model :=
  match toks with
  | FileTok.n pnum :: rest =>
      match Model.Initialize_w env { m with param_num_w := pnum } false with
      | Except.ok m1 =>
          match readVals pnum rest with
          | some (vs, _) => Except.ok { m1 with param_w := vs }
          | none => Except.error ModelError.IOError
      | Except.error e => Except.error e
  | _ => Except.error ModelError.IOError

/-- `Model::Deserialize` (lines 163-181): read score label, loss label and
the three dimension fields in write order — with no validation of any of
them — then `deserialize_w`.  Trailing stream content is ignored, matching
the source, which simply closes the file. -/
def Model.Deserialize (env : Nat) (toks : List FileTok) : Except ModelError Model :=
  match toks with
  | FileTok.s sf :: FileTok.s lf :: FileTok.n nf :: FileTok.n nfield ::
      FileTok.n nK :: rest =>
      Model.deserialize_w env
        { score_func := sf, loss_func := lf, num_feat := nf, num_field := nfield,
          num_K := nK, param_num_w := 0, param_w := [] } rest
  | _ => Except.error ModelError.IOError

/-- Slot `i` of the linear buffer in closed form. -/
def linSlot (i : Nat) : Val := if i % 2 = 0 then Val.zero else Val.one

/-- Slot `i` of the fm buffer in closed form. -/
def fmSlot (seed num_K i : Nat) : Val :=
  if i % 2 = 0 then Val.rand seed num_K (i / 2) else Val.one

/-- Slot `i` of the ffm buffer in closed form: blocks of `2 * get_aligned_k`
slots, made of chunks of `2 * kAlign` slots whose first `kAlign` entries
are weights and last `kAlign` entries are accumulators. -/
def ffmSlot (seed num_K : Nat) (i : Nat) : Val :=
  if i % (2 * get_aligned_k num_K) % (2 * kAlign) < kAlign then
    ffmWeightVal seed num_K (i / (2 * get_aligned_k num_K))
      (i % (2 * get_aligned_k num_K) / (2 * kAlign) * kAlign +
        i % (2 * get_aligned_k num_K) % (2 * kAlign))
  else Val.one

lemma flatMap_const_nil {α β : Type} (l : List α) :
    l.flatMap (fun _ => ([] : List β)) = [] := by
  induction l with
  | nil => rfl
  | cons a l ih => simp [List.flatMap_cons, ih]

/-- Flattening a loop nest: binding constant-length `map`-over-`range`
segments over an outer `range` is a single `map` over the flat index
range, the outer index being `i / L` and the inner one `i % L`. -/
lemma range_flatMap_map {α : Type} (g : Nat → Nat → α) :
    ∀ m L : Nat,
      (List.range m).flatMap (fun b => (List.range L).map (g b)) =
      (List.range (m * L)).map (fun i => g (i / L) (i % L)) := by
  intro m L
  rcases Nat.eq_zero_or_pos L with hL | hL
  · subst hL
    simp [flatMap_const_nil]
  · induction m with
    | zero => simp
    | succ m ih =>
      rw [List.range_succ, List.flatMap_append, ih, Nat.succ_mul, List.range_add,
        List.map_append, List.map_map]
      congr 1
      · simp only [List.flatMap_cons, List.flatMap_nil, List.append_nil]
        refine (List.map_congr_left ?_).symm
        intro j hj
        have hjL : j < L := List.mem_range.mp hj
        simp only [Function.comp_apply]
        rw [Nat.mul_comm m L, Nat.mul_add_div hL, Nat.mul_add_mod,
          Nat.div_eq_of_lt hjL, Nat.mod_eq_of_lt hjL, Nat.add_zero]

lemma ffmChunk_eq (f : Nat → Val) :
    ((List.range kAlign).map f) ++ ((List.range kAlign).map (fun _ => Val.one)) =
    (List.range (2 * kAlign)).map (fun p => if p < kAlign then f p else Val.one) := rfl

lemma ffmBlock_eq (seed num_K b : Nat) :
    ffmBlock seed num_K b =
    (List.range ((get_aligned_k num_K / kAlign) * (2 * kAlign))).map
      (fun off => if off % (2 * kAlign) < kAlign then
          ffmWeightVal seed num_K b ((off / (2 * kAlign)) * kAlign + off % (2 * kAlign))
        else Val.one) := by
  unfold ffmBlock
  have h : (fun c => ((List.range kAlign).map
        (fun s => ffmWeightVal seed num_K b (c * kAlign + s))) ++
        ((List.range kAlign).map (fun _ => Val.one))) =
      (fun c => (List.range (2 * kAlign)).map
        (fun p => if p < kAlign then ffmWeightVal seed num_K b (c * kAlign + p)
          else Val.one)) :=
    funext fun c => ffmChunk_eq _
  rw [h, range_flatMap_map]

lemma aligned_chunks_mul (num_K : Nat) :
    (get_aligned_k num_K / kAlign) * (2 * kAlign) = 2 * get_aligned_k num_K := by
  have h4 : 0 < kAlign := by norm_num [kAlign]
  unfold get_aligned_k
  rw [Nat.mul_div_cancel _ h4]
  ring

lemma ffmInit_eq (seed num_K num_feat num_field : Nat) :
    ffmInit seed num_K num_feat num_field =
    (List.range (num_feat * num_field * (2 * get_aligned_k num_K))).map
      (ffmSlot seed num_K) := by
  unfold ffmInit
  have h : ffmBlock seed num_K = fun b =>
      (List.range (2 * get_aligned_k num_K)).map
        (fun off => if off % (2 * kAlign) < kAlign then
            ffmWeightVal seed num_K b ((off / (2 * kAlign)) * kAlign + off % (2 * kAlign))
          else Val.one) :=
    funext fun b => by rw [ffmBlock_eq, aligned_chunks_mul]
  rw [h, range_flatMap_map]
  rfl

lemma linearInit_eq (p : Nat) :
    linearInit p = (List.range (p / 2 * 2)).map linSlot := by
  unfold linearInit
  have h : (fun _ : Nat => [Val.zero, Val.one]) = fun b : Nat =>
      (List.range 2).map (fun s => if s = 0 then Val.zero else Val.one) := rfl
  rw [h, range_flatMap_map]
  rfl

lemma fmInit_eq (seed num_K p : Nat) :
    fmInit seed num_K p = (List.range (p / 2 * 2)).map (fmSlot seed num_K) := by
  unfold fmInit
  have h : (fun i : Nat => [Val.rand seed num_K i, Val.one]) = fun i : Nat =>
      (List.range 2).map (fun s => if s = 0 then Val.rand seed num_K i else Val.one) := rfl
  rw [h, range_flatMap_map]
  rfl

lemma linearInit_length (p : Nat) : (linearInit p).length = p / 2 * 2 := by
  rw [linearInit_eq]; simp

lemma fmInit_length (seed num_K p : Nat) : (fmInit seed num_K p).length = p / 2 * 2 := by
  rw [fmInit_eq]; simp

lemma ffmInit_length (seed num_K num_feat num_field : Nat) :
    (ffmInit seed num_K num_feat num_field).length =
    num_feat * num_field * (2 * get_aligned_k num_K) := by
  rw [ffmInit_eq]; simp

lemma map_range_getElem? {α : Type} (f : Nat → α) {N i : Nat} (h : i < N) :
    ((List.range N).map f)[i]? = some (f i) := by
  rw [List.getElem?_map, List.getElem?_range h]
  rfl

lemma readVals_append (vs : List Val) (rest : List FileTok) :
    readVals vs.length (vs.map FileTok.r ++ rest) = some (vs, rest) := by
  induction vs with
  | nil => rfl
  | cons v vs ih => simp [readVals, ih]

lemma readVals_exact (vs : List Val) :
    readVals vs.length (vs.map FileTok.r) = some (vs, []) := by
  have h := readVals_append vs []
  simpa using h

lemma deserialize_tokens_ok (env : Nat) (sf lf : String)
    (nf nfield nK pnum : Nat) (vs : List Val) (rest : List FileTok)
    (hsf : sf = "linear" ∨ sf = "fm" ∨ sf = "ffm") (hlen : vs.length = pnum) :
    Model.Deserialize env
      (FileTok.s sf :: FileTok.s lf :: FileTok.n nf :: FileTok.n nfield ::
        FileTok.n nK :: FileTok.n pnum :: (vs.map FileTok.r ++ rest)) =
    Except.ok ⟨sf, lf, nf, nfield, nK, pnum, vs⟩ := by
  subst hlen
  rcases hsf with h | h | h <;> subst h <;>
    simp [Model.Deserialize, Model.deserialize_w, Model.Initialize_w, readVals_append]

lemma deserialize_tokens_unknown (env : Nat) (sf lf : String)
    (nf nfield nK pnum : Nat) (rest : List FileTok)
    (hsf : ¬(sf = "linear" ∨ sf = "fm" ∨ sf = "ffm")) :
    Model.Deserialize env
      (FileTok.s sf :: FileTok.s lf :: FileTok.n nf :: FileTok.n nfield ::
        FileTok.n nK :: FileTok.n pnum :: rest) =
    Except.error ModelError.UnknownVariant := by
  simp [Model.Deserialize, Model.deserialize_w, Model.Initialize_w, hsf]

lemma deserialize_serialize (env : Nat) (m : Model)
    (hsf : m.score_func = "linear" ∨ m.score_func = "fm" ∨ m.score_func = "ffm")
    (hlen : m.param_w.length = m.param_num_w) :
    Model.Deserialize env (Model.Serialize m) = Except.ok m := by
  obtain ⟨sf, lf, nf, nfield, nK, pnum, w⟩ := m
  have h := deserialize_tokens_ok env sf lf nf nfield nK pnum w [] hsf hlen
  simpa [Model.Serialize, Model.serialize_w] using h

lemma init_linear_eq (env : Nat) (lf : String) (nf nfield nK : Nat)
    (hlf : lf ≠ "") (hnf : nf ≠ 0) :
    Model.Init env "linear" lf nf nfield nK =
    Except.ok ⟨"linear", lf, nf, nfield, nK, nf * 2, linearInit (nf * 2)⟩ := by
  simp [Model.Init, slot_count, Model.Initialize_w, hlf, hnf]

lemma init_fm_eq (env : Nat) (lf : String) (nf nfield nK : Nat)
    (hlf : lf ≠ "") (hnf : nf ≠ 0) :
    Model.Init env "fm" lf nf nfield nK =
    Except.ok ⟨"fm", lf, nf, nfield, nK, nf * nK * 2,
      fmInit defaultEngineSeed nK (nf * nK * 2)⟩ := by
  simp [Model.Init, slot_count, Model.Initialize_w, seedOfEngine, hlf, hnf]

lemma init_ffm_eq (env : Nat) (lf : String) (nf nfield nK : Nat)
    (hlf : lf ≠ "") (hnf : nf ≠ 0) :
    Model.Init env "ffm" lf nf nfield nK =
    Except.ok ⟨"ffm", lf, nf, nfield, nK, nf * get_aligned_k nK * nfield * 2,
      ffmInit defaultEngineSeed nK nf nfield⟩ := by
  simp [Model.Init, slot_count, Model.Initialize_w, seedOfEngine, hlf, hnf]

lemma init_ok_inv (env : Nat) (sf lf : String) (nf nfield nK : Nat) (m : Model)
    (h : Model.Init env sf lf nf nfield nK = Except.ok m) :
    (m.score_func = "linear" ∨ m.score_func = "fm" ∨ m.score_func = "ffm") ∧
    m.param_w.length = m.param_num_w := by
  by_cases h1 : sf = ""
  · simp [Model.Init, h1] at h
  by_cases h2 : lf = ""
  · simp [Model.Init, h1, h2] at h
  by_cases h3 : nf = 0
  · simp [Model.Init, h1, h2, h3] at h
  by_cases h4 : sf = "linear"
  · subst h4
    rw [init_linear_eq env lf nf nfield nK h2 h3] at h
    cases h
    refine ⟨Or.inl rfl, ?_⟩
    show (linearInit (nf * 2)).length = nf * 2
    rw [linearInit_length]
    omega
  by_cases h5 : sf = "fm"
  · subst h5
    rw [init_fm_eq env lf nf nfield nK h2 h3] at h
    cases h
    refine ⟨Or.inr (Or.inl rfl), ?_⟩
    show (fmInit defaultEngineSeed nK (nf * nK * 2)).length = nf * nK * 2
    rw [fmInit_length]
    omega
  by_cases h6 : sf = "ffm"
  · subst h6
    rw [init_ffm_eq env lf nf nfield nK h2 h3] at h
    cases h
    refine ⟨Or.inr (Or.inr rfl), ?_⟩
    show (ffmInit defaultEngineSeed nK nf nfield).length =
      nf * get_aligned_k nK * nfield * 2
    rw [ffmInit_length]
    ring
  · simp [Model.Init, slot_count, h1, h2, h3, h4, h5, h6] at h

lemma kAlign_dvd_aligned (num_K : Nat) : kAlign ∣ get_aligned_k num_K :=
  ⟨(num_K + kAlign - 1) / kAlign, Nat.mul_comm _ _⟩

lemma dvd_two_ka (num_K : Nat) : (2 * kAlign) ∣ (2 * get_aligned_k num_K) := by
  obtain ⟨t, ht⟩ := kAlign_dvd_aligned num_K
  exact ⟨t, by rw [ht]; ring⟩

lemma ffmSlot_acc (seed num_K i : Nat) (h : kAlign ≤ i % (2 * kAlign)) :
    ffmSlot seed num_K i = Val.one := by
  unfold ffmSlot
  rw [Nat.mod_mod_of_dvd i (dvd_two_ka num_K)]
  exact if_neg (Nat.not_lt.mpr h)

lemma ffmSlot_pad (seed num_K b d : Nat) (hKd : num_K ≤ d)
    (hd : d < get_aligned_k num_K) :
    ffmSlot seed num_K
      (b * (2 * get_aligned_k num_K) + d / kAlign * (2 * kAlign) + d % kAlign) =
    Val.zero := by
  have hk4 : kAlign = 4 := rfl
  set ka := get_aligned_k num_K with hka
  obtain ⟨t, ht⟩ : kAlign ∣ ka := kAlign_dvd_aligned num_K
  have h2ka : 0 < 2 * ka := by omega
  have h8 : 0 < 2 * kAlign := by rw [hk4]; omega
  have hrlt : d % kAlign < 2 * kAlign := by rw [hk4]; omega
  have hrlt4 : d % kAlign < kAlign := by rw [hk4]; omega
  have hoff : d / kAlign * (2 * kAlign) + d % kAlign < 2 * ka := by
    rw [hk4] at ht ⊢
    omega
  rw [Nat.add_assoc]
  unfold ffmSlot
  rw [Nat.mul_comm b (2 * ka), Nat.mul_add_div h2ka, Nat.mul_add_mod,
    Nat.div_eq_of_lt hoff, Nat.mod_eq_of_lt hoff, Nat.add_zero]
  have hmod8 : (d / kAlign * (2 * kAlign) + d % kAlign) % (2 * kAlign) = d % kAlign := by
    rw [Nat.mul_comm (d / kAlign) (2 * kAlign), Nat.mul_add_mod]
    exact Nat.mod_eq_of_lt hrlt
  have hdiv8 : (d / kAlign * (2 * kAlign) + d % kAlign) / (2 * kAlign) = d / kAlign := by
    rw [Nat.mul_comm (d / kAlign) (2 * kAlign), Nat.mul_add_div h8,
      Nat.div_eq_of_lt hrlt, Nat.add_zero]
  rw [hmod8, hdiv8, if_pos hrlt4, Nat.div_add_mod']
  unfold ffmWeightVal
  exact if_neg (by omega)

lemma ffmInit_getElem (seed num_K nf nfield i : Nat)
    (hi : i < nf * nfield * (2 * get_aligned_k num_K)) :
    (ffmInit seed num_K nf nfield)[i]? = some (ffmSlot seed num_K i) := by
  rw [ffmInit_eq]
  exact map_range_getElem? _ hi

lemma linearInit_getElem (p i : Nat) (hi : i < p / 2 * 2) :
    (linearInit p)[i]? = some (linSlot i) := by
  rw [linearInit_eq]
  exact map_range_getElem? _ hi

lemma fmInit_getElem (seed num_K p i : Nat) (hi : i < p / 2 * 2) :
    (fmInit seed num_K p)[i]? = some (fmSlot seed num_K i) := by
  rw [fmInit_eq]
  exact map_range_getElem? _ hi

lemma linSlot_even (i : Nat) : linSlot (2 * i) = Val.zero := by
  unfold linSlot
  exact if_pos (by omega)

lemma linSlot_odd (i : Nat) : linSlot (2 * i + 1) = Val.one := by
  unfold linSlot
  exact if_neg (by omega)

lemma fmSlot_even (seed num_K i : Nat) :
    fmSlot seed num_K (2 * i) = Val.rand seed num_K i := by
  unfold fmSlot
  rw [if_pos (by omega)]
  congr 1
  omega

lemma fmSlot_odd (seed num_K i : Nat) : fmSlot seed num_K (2 * i + 1) = Val.one := by
  unfold fmSlot
  exact if_neg (by omega)

lemma init_ok_ne (env : Nat) (sf lf : String) (nf nfield nK : Nat) (m : Model)
    (h : Model.Init env sf lf nf nfield nK = Except.ok m) :
    lf ≠ "" ∧ nf ≠ 0 := by
  by_cases h1 : sf = ""
  · simp [Model.Init, h1] at h
  by_cases h2 : lf = ""
  · simp [Model.Init, h1, h2] at h
  by_cases h3 : nf = 0
  · simp [Model.Init, h1, h2, h3] at h
  exact ⟨h2, h3⟩

lemma le_get_aligned_k (num_K : Nat) : num_K ≤ get_aligned_k num_K := by
  unfold get_aligned_k kAlign
  omega

lemma get_aligned_k_mod (num_K : Nat) : get_aligned_k num_K % kAlign = 0 := by
  unfold get_aligned_k kAlign
  omega

lemma get_aligned_k_mono {a b : Nat} (h : a ≤ b) :
    get_aligned_k a ≤ get_aligned_k b := by
  unfold get_aligned_k
  have h1 : a + kAlign - 1 ≤ b + kAlign - 1 := by omega
  exact Nat.mul_le_mul_right _ (Nat.div_le_div_right h1)

lemma ffm_pad_index_lt (b d nBlocks num_K : Nat) (hb : b < nBlocks)
    (hd : d < get_aligned_k num_K) :
    b * (2 * get_aligned_k num_K) + d / kAlign * (2 * kAlign) + d % kAlign <
      nBlocks * (2 * get_aligned_k num_K) := by
  have hk4 : kAlign = 4 := rfl
  obtain ⟨t, ht⟩ := kAlign_dvd_aligned num_K
  have hoff : d / kAlign * (2 * kAlign) + d % kAlign < 2 * get_aligned_k num_K := by
    rw [hk4] at ht ⊢
    omega
  rw [Nat.add_assoc]
  calc b * (2 * get_aligned_k num_K) +
        (d / kAlign * (2 * kAlign) + d % kAlign) <
      b * (2 * get_aligned_k num_K) + 2 * get_aligned_k num_K :=
        Nat.add_lt_add_left hoff _
    _ = (b + 1) * (2 * get_aligned_k num_K) := (Nat.succ_mul b _).symm
    _ ≤ nBlocks * (2 * get_aligned_k num_K) := Nat.mul_le_mul_right _ hb

lemma ffmInit_zero_K (seed nf nfield : Nat) : ffmInit seed 0 nf nfield = [] := by
  unfold ffmInit ffmBlock
  have h : get_aligned_k 0 / kAlign = 0 := rfl
  rw [h]
  simp [flatMap_const_nil]

/-- C1: for every `featureCount > 0` the slot count computed at fresh
construction is `featureCount * 2` for the linear variant,
`featureCount * factorCount * 2` for the fm variant, and
`featureCount * paddedFactors * fieldCount * 2` for the ffm variant,
where `paddedFactors = get_aligned_k factorCount` is the factor count
rounded up to the alignment width `kAlign`. -/
theorem C1_slot_count (env : Nat) (lf : String) (nf nfield nK : Nat)
    (hlf : lf ≠ "") (hnf : 0 < nf) :
    (∃ m, Model.Init env "linear" lf nf nfield nK = Except.ok m ∧
      m.param_num_w = nf * 2) ∧
    (∃ m, Model.Init env "fm" lf nf nfield nK = Except.ok m ∧
      m.param_num_w = nf * nK * 2) ∧
    (∃ m, Model.Init env "ffm" lf nf nfield nK = Except.ok m ∧
      m.param_num_w = nf * get_aligned_k nK * nfield * 2) := by
  have hnf' : nf ≠ 0 := by omega
  exact ⟨⟨_, init_linear_eq env lf nf nfield nK hlf hnf', rfl⟩,
    ⟨_, init_fm_eq env lf nf nfield nK hlf hnf', rfl⟩,
    ⟨_, init_ffm_eq env lf nf nfield nK hlf hnf', rfl⟩⟩

/-- Witness for C1 at `lf = "squared"`, `featureCount = 2`, `fieldCount = 3`,
`factorCount = 5`. -/
theorem C1_slot_count_witness :
    ("squared" : String) ≠ "" ∧ 0 < 2 ∧
    ((∃ m, Model.Init 0 "linear" "squared" 2 3 5 = Except.ok m ∧
        m.param_num_w = 2 * 2) ∧
     (∃ m, Model.Init 0 "fm" "squared" 2 3 5 = Except.ok m ∧
        m.param_num_w = 2 * 5 * 2) ∧
     (∃ m, Model.Init 0 "ffm" "squared" 2 3 5 = Except.ok m ∧
        m.param_num_w = 2 * get_aligned_k 5 * 3 * 2)) :=
  ⟨by decide, by decide, C1_slot_count 0 "squared" 2 3 5 (by decide) (by decide)⟩

/-- C2: round-trip law — loading the checkpoint produced by saving a freshly
created store yields a store whose buffer is identical to the original
buffer and whose metadata fields (variant label, loss label, featureCount,
fieldCount, factorCount, slotCount) equal the original's. -/
theorem C2_round_trip (env env2 : Nat) (sf lf : String) (nf nfield nK : Nat)
    (m : Model) (h : Model.Init env sf lf nf nfield nK = Except.ok m) :
    ∃ m2, Model.Deserialize env2 (Model.Serialize m) = Except.ok m2 ∧
      m2.param_w = m.param_w ∧ m2.score_func = m.score_func ∧
      m2.loss_func = m.loss_func ∧ m2.num_feat = m.num_feat ∧
      m2.num_field = m.num_field ∧ m2.num_K = m.num_K ∧
      m2.param_num_w = m.param_num_w := by
  obtain ⟨hsf, hlen⟩ := init_ok_inv env sf lf nf nfield nK m h
  exact ⟨m, deserialize_serialize env2 m hsf hlen, rfl, rfl, rfl, rfl, rfl, rfl, rfl⟩

/-- Witness for C2: a concrete fresh linear store with 3 features
round-trips. -/
theorem C2_round_trip_witness :
    Model.Init 0 "linear" "squared" 3 0 0 =
      Except.ok ⟨"linear", "squared", 3, 0, 0, 6,
        [Val.zero, Val.one, Val.zero, Val.one, Val.zero, Val.one]⟩ ∧
    (∃ m2, Model.Deserialize 1
        (Model.Serialize ⟨"linear", "squared", 3, 0, 0, 6,
          [Val.zero, Val.one, Val.zero, Val.one, Val.zero, Val.one]⟩) =
        Except.ok m2 ∧
      m2.param_w = [Val.zero, Val.one, Val.zero, Val.one, Val.zero, Val.one] ∧
      m2.score_func = "linear" ∧ m2.loss_func = "squared" ∧ m2.num_feat = 3 ∧
      m2.num_field = 0 ∧ m2.num_K = 0 ∧ m2.param_num_w = 6) :=
  ⟨rfl, C2_round_trip 0 1 "linear" "squared" 3 0 0
    ⟨"linear", "squared", 3, 0, 0, 6,
      [Val.zero, Val.one, Val.zero, Val.one, Val.zero, Val.one]⟩ rfl⟩

/-- Counterexample to C3 as stated: for the ffm variant the buffer is NOT
organized as interleaved weight/accumulator pairs.  With `featureCount =
fieldCount = factorCount = 1` the fresh buffer is
`[w, 0, 0, 0, 1, 1, 1, 1]`: index `2*0+1 = 1 < slotCount = 8` holds a
padding weight `0.0`, not an accumulator equal to `1.0`. -/
theorem C3_counterexample :
    Model.Init 0 "ffm" "squared" 1 1 1 =
      Except.ok ⟨"ffm", "squared", 1, 1, 1, 8,
        [Val.rand defaultEngineSeed 1 0, Val.zero, Val.zero, Val.zero,
         Val.one, Val.one, Val.one, Val.one]⟩ ∧
    Val.zero ≠ Val.one :=
  ⟨rfl, by decide⟩

/-- C3 (amended): for the linear and fm variants the buffer is interleaved
contiguous pairs — `buffer[2i]` is the trainable weight and `buffer[2i+1]`
its accumulator equal to 1.0, with no padding between them.  For the ffm
variant the buffer instead consists of aligned chunks of `kAlign` weights
followed by their `kAlign` accumulators (`ffmSlot` is the exact layout),
and every slot at a position `i` with `i % (2*kAlign) >= kAlign` is an
accumulator equal to 1.0. -/
theorem C3_amended_layout (env : Nat) (lf : String) (nf nfield nK : Nat)
    (m1 m2 m3 : Model)
    (h1 : Model.Init env "linear" lf nf nfield nK = Except.ok m1)
    (h2 : Model.Init env "fm" lf nf nfield nK = Except.ok m2)
    (h3 : Model.Init env "ffm" lf nf nfield nK = Except.ok m3) :
    (∀ i, 2 * i + 1 < m1.param_num_w →
      m1.param_w[2 * i]? = some Val.zero ∧
      m1.param_w[2 * i + 1]? = some Val.one) ∧
    (∀ i, 2 * i + 1 < m2.param_num_w →
      m2.param_w[2 * i]? = some (Val.rand defaultEngineSeed nK i) ∧
      m2.param_w[2 * i + 1]? = some Val.one) ∧
    (∀ i, i < m3.param_num_w →
      m3.param_w[i]? = some (ffmSlot defaultEngineSeed nK i)) ∧
    (∀ i, kAlign ≤ i % (2 * kAlign) → ffmSlot defaultEngineSeed nK i = Val.one) := by
  obtain ⟨hlf, hnf⟩ := init_ok_ne env "linear" lf nf nfield nK m1 h1
  rw [init_linear_eq env lf nf nfield nK hlf hnf] at h1
  rw [init_fm_eq env lf nf nfield nK hlf hnf] at h2
  rw [init_ffm_eq env lf nf nfield nK hlf hnf] at h3
  cases h1
  cases h2
  cases h3
  refine ⟨?_, ?_, ?_, ?_⟩
  · intro i hi
    have hi' : 2 * i + 1 < nf * 2 := hi
    constructor
    · show (linearInit (nf * 2))[2 * i]? = some Val.zero
      rw [linearInit_getElem _ _ (by omega), linSlot_even]
    · show (linearInit (nf * 2))[2 * i + 1]? = some Val.one
      rw [linearInit_getElem _ _ (by omega), linSlot_odd]
  · intro i hi
    have hi' : 2 * i + 1 < nf * nK * 2 := hi
    constructor
    · show (fmInit defaultEngineSeed nK (nf * nK * 2))[2 * i]? =
        some (Val.rand defaultEngineSeed nK i)
      rw [fmInit_getElem _ _ _ _ (by omega), fmSlot_even]
    · show (fmInit defaultEngineSeed nK (nf * nK * 2))[2 * i + 1]? = some Val.one
      rw [fmInit_getElem _ _ _ _ (by omega), fmSlot_odd]
  · intro i hi
    have hi0 : i < nf * get_aligned_k nK * nfield * 2 := hi
    have hi' : i < nf * nfield * (2 * get_aligned_k nK) := by
      have heq : nf * get_aligned_k nK * nfield * 2 =
          nf * nfield * (2 * get_aligned_k nK) := by ring
      omega
    show (ffmInit defaultEngineSeed nK nf nfield)[i]? =
      some (ffmSlot defaultEngineSeed nK i)
    exact ffmInit_getElem _ _ _ _ _ hi'
  · intro i hi
    exact ffmSlot_acc defaultEngineSeed nK i hi

/-- Witness for the amended C3 at `featureCount = fieldCount = factorCount
= 1`. -/
theorem C3_amended_layout_witness :
    Model.Init 0 "linear" "squared" 1 1 1 =
      Except.ok ⟨"linear", "squared", 1, 1, 1, 2, [Val.zero, Val.one]⟩ ∧
    Model.Init 0 "fm" "squared" 1 1 1 =
      Except.ok ⟨"fm", "squared", 1, 1, 1, 2, [Val.rand defaultEngineSeed 1 0, Val.one]⟩ ∧
    Model.Init 0 "ffm" "squared" 1 1 1 =
      Except.ok ⟨"ffm", "squared", 1, 1, 1, 8,
        [Val.rand defaultEngineSeed 1 0, Val.zero, Val.zero, Val.zero,
         Val.one, Val.one, Val.one, Val.one]⟩ ∧
    ((∀ i, 2 * i + 1 <
        (⟨"linear", "squared", 1, 1, 1, 2, [Val.zero, Val.one]⟩ : Model).param_num_w →
      (⟨"linear", "squared", 1, 1, 1, 2, [Val.zero, Val.one]⟩ : Model).param_w[2 * i]? =
        some Val.zero ∧
      (⟨"linear", "squared", 1, 1, 1, 2, [Val.zero, Val.one]⟩ : Model).param_w[2 * i + 1]? =
        some Val.one) ∧
     (∀ i, 2 * i + 1 <
        (⟨"fm", "squared", 1, 1, 1, 2, [Val.rand defaultEngineSeed 1 0, Val.one]⟩ :
          Model).param_num_w →
      (⟨"fm", "squared", 1, 1, 1, 2, [Val.rand defaultEngineSeed 1 0, Val.one]⟩ :
          Model).param_w[2 * i]? = some (Val.rand defaultEngineSeed 1 i) ∧
      (⟨"fm", "squared", 1, 1, 1, 2, [Val.rand defaultEngineSeed 1 0, Val.one]⟩ :
          Model).param_w[2 * i + 1]? = some Val.one) ∧
     (∀ i, i < (⟨"ffm", "squared", 1, 1, 1, 8,
          [Val.rand defaultEngineSeed 1 0, Val.zero, Val.zero, Val.zero,
           Val.one, Val.one, Val.one, Val.one]⟩ : Model).param_num_w →
      (⟨"ffm", "squared", 1, 1, 1, 8,
          [Val.rand defaultEngineSeed 1 0, Val.zero, Val.zero, Val.zero,
           Val.one, Val.one, Val.one, Val.one]⟩ : Model).param_w[i]? =
        some (ffmSlot defaultEngineSeed 1 i)) ∧
     (∀ i, kAlign ≤ i % (2 * kAlign) → ffmSlot defaultEngineSeed 1 i = Val.one)) :=
  ⟨rfl, rfl, rfl,
    C3_amended_layout 0 "squared" 1 1 1
      ⟨"linear", "squared", 1, 1, 1, 2, [Val.zero, Val.one]⟩
      ⟨"fm", "squared", 1, 1, 1, 2, [Val.rand defaultEngineSeed 1 0, Val.one]⟩
      ⟨"ffm", "squared", 1, 1, 1, 8,
        [Val.rand defaultEngineSeed 1 0, Val.zero, Val.zero, Val.zero,
         Val.one, Val.one, Val.one, Val.one]⟩ rfl rfl rfl⟩

/-- Counterexample to C4 as stated: a checkpoint whose stored loss label
`"bogus_loss"` is unrecognized AND whose stored featureCount is `0` loads
successfully — no `FormatError` (indeed no error of any kind) is
reported. -/
theorem C4_counterexample :
    Model.Deserialize 0
      [FileTok.s "linear", FileTok.s "bogus_loss", FileTok.n 0, FileTok.n 7,
       FileTok.n 9, FileTok.n 2, FileTok.r Val.zero, FileTok.r Val.one] =
    Except.ok ⟨"linear", "bogus_loss", 0, 7, 9, 2, [Val.zero, Val.one]⟩ := rfl

/-- C4 (amended): the load path performs no validation of its own — any
stored loss label and any stored featureCount (including 0) are accepted
verbatim and a store is constructed; an unrecognized stored scoreVariant
label does fail, but through the process-fatal unknown-variant abort
raised inside buffer allocation (`Initialize_w`), not through a reported
`FormatError` — no `FormatError` exists on the load path. -/
theorem C4_amended_no_validation (env : Nat) (sf lf : String)
    (nf nfield nK pnum : Nat) (vs : List Val) (rest : List FileTok)
    (hlen : vs.length = pnum) :
    ((sf = "linear" ∨ sf = "fm" ∨ sf = "ffm") →
      Model.Deserialize env
        (FileTok.s sf :: FileTok.s lf :: FileTok.n nf :: FileTok.n nfield ::
          FileTok.n nK :: FileTok.n pnum :: (vs.map FileTok.r ++ rest)) =
      Except.ok ⟨sf, lf, nf, nfield, nK, pnum, vs⟩) ∧
    (¬(sf = "linear" ∨ sf = "fm" ∨ sf = "ffm") →
      Model.Deserialize env
        (FileTok.s sf :: FileTok.s lf :: FileTok.n nf :: FileTok.n nfield ::
          FileTok.n nK :: FileTok.n pnum :: (vs.map FileTok.r ++ rest)) =
      Except.error ModelError.UnknownVariant) :=
  ⟨fun hsf => deserialize_tokens_ok env sf lf nf nfield nK pnum vs rest hsf hlen,
   fun hsf => deserialize_tokens_unknown env sf lf nf nfield nK pnum _ hsf⟩

/-- Witness for the amended C4: an fm checkpoint with unrecognized loss
label and featureCount 0. -/
theorem C4_amended_no_validation_witness :
    ([Val.zero] : List Val).length = 1 ∧
    ((("fm" : String) = "linear" ∨ ("fm" : String) = "fm" ∨ ("fm" : String) = "ffm") →
      Model.Deserialize 0
        (FileTok.s "fm" :: FileTok.s "bogus_loss" :: FileTok.n 0 :: FileTok.n 7 ::
          FileTok.n 9 :: FileTok.n 1 :: ([Val.zero].map FileTok.r ++ [])) =
      Except.ok ⟨"fm", "bogus_loss", 0, 7, 9, 1, [Val.zero]⟩) ∧
    (¬(("fm" : String) = "linear" ∨ ("fm" : String) = "fm" ∨ ("fm" : String) = "ffm") →
      Model.Deserialize 0
        (FileTok.s "fm" :: FileTok.s "bogus_loss" :: FileTok.n 0 :: FileTok.n 7 ::
          FileTok.n 9 :: FileTok.n 1 :: ([Val.zero].map FileTok.r ++ [])) =
      Except.error ModelError.UnknownVariant) :=
  ⟨rfl, C4_amended_no_validation 0 "fm" "bogus_loss" 0 7 9 1 [Val.zero] [] rfl⟩

/-- C5: the load operation trusts the stored slotCount verbatim — it
allocates a buffer of exactly the stored slotCount, reads exactly that
many numeric values, and accepts any stored slotCount without relating it
to what `slot_count` would derive from the stored
featureCount/fieldCount/factorCount (note: no hypothesis below constrains
`pnum` against `slot_count sf nf nfield nK`). -/
theorem C5_trusts_stored_slot_count (env : Nat) (sf lf : String)
    (nf nfield nK pnum : Nat) (vs : List Val) (rest : List FileTok)
    (hsf : sf = "linear" ∨ sf = "fm" ∨ sf = "ffm") (hlen : vs.length = pnum) :
    Model.Deserialize env
      (FileTok.s sf :: FileTok.s lf :: FileTok.n nf :: FileTok.n nfield ::
        FileTok.n nK :: FileTok.n pnum :: (vs.map FileTok.r ++ rest)) =
    Except.ok ⟨sf, lf, nf, nfield, nK, pnum, vs⟩ :=
  deserialize_tokens_ok env sf lf nf nfield nK pnum vs rest hsf hlen

/-- Witness for C5: a linear checkpoint claiming 3 features (so the layout
calculator would derive slotCount 6) but storing slotCount 2 loads without
any error, with a buffer of exactly 2 slots. -/
theorem C5_trusts_stored_slot_count_witness :
    (("linear" : String) = "linear" ∨ ("linear" : String) = "fm" ∨
      ("linear" : String) = "ffm") ∧
    ([Val.zero, Val.one] : List Val).length = 2 ∧
    slot_count "linear" 3 0 0 = some 6 ∧ (2 : Nat) ≠ 6 ∧
    Model.Deserialize 0
      (FileTok.s "linear" :: FileTok.s "squared" :: FileTok.n 3 :: FileTok.n 0 ::
        FileTok.n 0 :: FileTok.n 2 :: ([Val.zero, Val.one].map FileTok.r ++ [])) =
    Except.ok ⟨"linear", "squared", 3, 0, 0, 2, [Val.zero, Val.one]⟩ :=
  ⟨Or.inl rfl, rfl, rfl, by decide,
    C5_trusts_stored_slot_count 0 "linear" "squared" 3 0 0 2
      [Val.zero, Val.one] [] (Or.inl rfl) rfl⟩

/-- C6: for the ffm variant with positive dimensions, `paddedFactors =
get_aligned_k factorCount` satisfies `factorCount ≤ paddedFactors` and
`paddedFactors % kAlign = 0`; after initialization every weight slot at a
factor position `d` with `factorCount ≤ d < paddedFactors` (the padding
region) is exactly `0.0`, and every accumulator slot — the slots at
positions `i` with `i % (2*kAlign) ≥ kAlign`, including those of the
padding region — is `1.0`. -/
theorem C6_ffm_padding (env : Nat) (lf : String) (nf nfield nK : Nat) (m : Model)
    (hnf : 0 < nf) (hnfield : 0 < nfield) (hnK : 0 < nK)
    (h : Model.Init env "ffm" lf nf nfield nK = Except.ok m) :
    nK ≤ get_aligned_k nK ∧
    get_aligned_k nK % kAlign = 0 ∧
    (∀ b d, b < nf * nfield → nK ≤ d → d < get_aligned_k nK →
      m.param_w[b * (2 * get_aligned_k nK) + d / kAlign * (2 * kAlign) + d % kAlign]? =
        some Val.zero) ∧
    (∀ i, i < m.param_num_w → kAlign ≤ i % (2 * kAlign) →
      m.param_w[i]? = some Val.one) := by
  obtain ⟨hlf, hnf'⟩ := init_ok_ne env "ffm" lf nf nfield nK m h
  rw [init_ffm_eq env lf nf nfield nK hlf hnf'] at h
  cases h
  refine ⟨le_get_aligned_k nK, get_aligned_k_mod nK, ?_, ?_⟩
  · intro b d hb hKd hd
    have hidx := ffm_pad_index_lt b d (nf * nfield) nK hb hd
    show (ffmInit defaultEngineSeed nK nf nfield)[b * (2 * get_aligned_k nK) +
      d / kAlign * (2 * kAlign) + d % kAlign]? = some Val.zero
    rw [ffmInit_getElem _ _ _ _ _ hidx,
      ffmSlot_pad defaultEngineSeed nK b d hKd hd]
  · intro i hi hacc
    have hi0 : i < nf * get_aligned_k nK * nfield * 2 := hi
    have hi' : i < nf * nfield * (2 * get_aligned_k nK) := by
      have heq : nf * get_aligned_k nK * nfield * 2 =
          nf * nfield * (2 * get_aligned_k nK) := by ring
      omega
    show (ffmInit defaultEngineSeed nK nf nfield)[i]? = some Val.one
    rw [ffmInit_getElem _ _ _ _ _ hi', ffmSlot_acc defaultEngineSeed nK i hacc]

/-- Witness for C6 at `featureCount = fieldCount = factorCount = 1`. -/
theorem C6_ffm_padding_witness :
    0 < 1 ∧
    Model.Init 0 "ffm" "squared" 1 1 1 =
      Except.ok ⟨"ffm", "squared", 1, 1, 1, 8,
        [Val.rand defaultEngineSeed 1 0, Val.zero, Val.zero, Val.zero,
         Val.one, Val.one, Val.one, Val.one]⟩ ∧
    (1 ≤ get_aligned_k 1 ∧
     get_aligned_k 1 % kAlign = 0 ∧
     (∀ b d, b < 1 * 1 → 1 ≤ d → d < get_aligned_k 1 →
       (⟨"ffm", "squared", 1, 1, 1, 8,
          [Val.rand defaultEngineSeed 1 0, Val.zero, Val.zero, Val.zero,
           Val.one, Val.one, Val.one, Val.one]⟩ : Model).param_w[b *
            (2 * get_aligned_k 1) + d / kAlign * (2 * kAlign) + d % kAlign]? =
         some Val.zero) ∧
     (∀ i, i < (⟨"ffm", "squared", 1, 1, 1, 8,
          [Val.rand defaultEngineSeed 1 0, Val.zero, Val.zero, Val.zero,
           Val.one, Val.one, Val.one, Val.one]⟩ : Model).param_num_w →
       kAlign ≤ i % (2 * kAlign) →
       (⟨"ffm", "squared", 1, 1, 1, 8,
          [Val.rand defaultEngineSeed 1 0, Val.zero, Val.zero, Val.zero,
           Val.one, Val.one, Val.one, Val.one]⟩ : Model).param_w[i]? =
         some Val.one)) :=
  ⟨by decide, rfl,
    C6_ffm_padding 0 "squared" 1 1 1
      ⟨"ffm", "squared", 1, 1, 1, 8,
        [Val.rand defaultEngineSeed 1 0, Val.zero, Val.zero, Val.zero,
         Val.one, Val.one, Val.one, Val.one]⟩
      (by decide) (by decide) (by decide) rfl⟩

/-- Counterexample to C7 as stated: fresh construction of the fm and ffm
variants with factorCount 0 succeeds — `CHECK_GE(num_K, 0)` accepts 0, no
`InvalidDimensions` is raised; the computed slot count is 0 and the
initialization loops never execute, so the (empty) buffer indeed holds no
value derived from division by the square root of 0. -/
theorem C7_counterexample :
    Model.Init 0 "fm" "squared" 3 0 0 =
      Except.ok ⟨"fm", "squared", 3, 0, 0, 0, []⟩ ∧
    Model.Init 0 "ffm" "squared" 3 2 0 =
      Except.ok ⟨"ffm", "squared", 3, 2, 0, 0, []⟩ :=
  ⟨rfl, rfl⟩

/-- C7 (amended): initialization with factorCount 0 for a factor-requiring
variant does NOT fail — the dimension checks only require `factorCount ≥
0` — and it succeeds with slot count 0 and an empty buffer, so no value
derived from division by the square root of 0 is ever written. -/
theorem C7_amended_zero_factor (env : Nat) (lf : String) (nf nfield : Nat)
    (hlf : lf ≠ "") (hnf : 0 < nf) :
    Model.Init env "fm" lf nf nfield 0 =
      Except.ok ⟨"fm", lf, nf, nfield, 0, 0, []⟩ ∧
    Model.Init env "ffm" lf nf nfield 0 =
      Except.ok ⟨"ffm", lf, nf, nfield, 0, 0, []⟩ := by
  have hnf' : nf ≠ 0 := by omega
  constructor
  · rw [init_fm_eq env lf nf nfield 0 hlf hnf']
    have h1 : nf * 0 * 2 = 0 := by ring
    rw [h1]
    rfl
  · rw [init_ffm_eq env lf nf nfield 0 hlf hnf', ffmInit_zero_K]
    have h2 : nf * get_aligned_k 0 * nfield * 2 = 0 := by
      have h0 : get_aligned_k 0 = 0 := rfl
      rw [h0]
      ring
    rw [h2]

/-- Witness for the amended C7 at `featureCount = 3`, `fieldCount = 2`. -/
theorem C7_amended_zero_factor_witness :
    ("squared" : String) ≠ "" ∧ 0 < 3 ∧
    (Model.Init 0 "fm" "squared" 3 2 0 =
       Except.ok ⟨"fm", "squared", 3, 2, 0, 0, []⟩ ∧
     Model.Init 0 "ffm" "squared" 3 2 0 =
       Except.ok ⟨"ffm", "squared", 3, 2, 0, 0, []⟩) :=
  ⟨by decide, by decide, C7_amended_zero_factor 0 "squared" 3 2 (by decide) (by decide)⟩

/-- C8: for every variant, fresh construction with featureCount 0 fails with
`InvalidDimensions`.  In the source the failing `CHECK_GT(num_feature, 0)`
sits before the slot-count computation and before `Initialize_w`, so the
error is produced before any buffer allocation; in this embedding the
error result carries no store, so no partially allocated state exists. -/
theorem C8_zero_features (env : Nat) (sf lf : String) (nfield nK : Nat)
    (hsf : sf = "linear" ∨ sf = "fm" ∨ sf = "ffm") (hlf : lf ≠ "") :
    Model.Init env sf lf 0 nfield nK = Except.error ModelError.InvalidDimensions := by
  have hsf' : sf ≠ "" := by rcases hsf with h | h | h <;> subst h <;> decide
  simp [Model.Init, hsf', hlf]

/-- Witness for C8 with the fm variant. -/
theorem C8_zero_features_witness :
    (("fm" : String) = "linear" ∨ ("fm" : String) = "fm" ∨ ("fm" : String) = "ffm") ∧
    ("squared" : String) ≠ "" ∧
    Model.Init 0 "fm" "squared" 0 7 9 = Except.error ModelError.InvalidDimensions :=
  ⟨Or.inr (Or.inl rfl), by decide,
    C8_zero_features 0 "fm" "squared" 7 9 (Or.inr (Or.inl rfl)) (by decide)⟩

/-- C9: for all three variants and all featureCount > 0, the computed slot
count is even, and it is monotonically non-decreasing in featureCount,
fieldCount and factorCount wherever the variant uses those dimensions. -/
theorem C9_even_monotone (nf nf2 nfield nfield2 nK nK2 : Nat)
    (hnf : 0 < nf) (h1 : nf ≤ nf2) (h2 : nfield ≤ nfield2) (h3 : nK ≤ nK2) :
    (∀ p p2, slot_count "linear" nf nfield nK = some p →
      slot_count "linear" nf2 nfield2 nK2 = some p2 → p % 2 = 0 ∧ p ≤ p2) ∧
    (∀ p p2, slot_count "fm" nf nfield nK = some p →
      slot_count "fm" nf2 nfield2 nK2 = some p2 → p % 2 = 0 ∧ p ≤ p2) ∧
    (∀ p p2, slot_count "ffm" nf nfield nK = some p →
      slot_count "ffm" nf2 nfield2 nK2 = some p2 → p % 2 = 0 ∧ p ≤ p2) := by
  refine ⟨?_, ?_, ?_⟩
  · intro p p2 hp hp2
    simp [slot_count] at hp hp2
    subst hp
    subst hp2
    exact ⟨Nat.mul_mod_left nf 2, Nat.mul_le_mul h1 (le_refl 2)⟩
  · intro p p2 hp hp2
    simp [slot_count] at hp hp2
    subst hp
    subst hp2
    exact ⟨Nat.mul_mod_left (nf * nK) 2,
      Nat.mul_le_mul (Nat.mul_le_mul h1 h3) (le_refl 2)⟩
  · intro p p2 hp hp2
    simp [slot_count] at hp hp2
    subst hp
    subst hp2
    exact ⟨Nat.mul_mod_left (nf * get_aligned_k nK * nfield) 2,
      Nat.mul_le_mul
        (Nat.mul_le_mul (Nat.mul_le_mul h1 (get_aligned_k_mono h3)) h2)
        (le_refl 2)⟩

/-- Witness for C9 at `(1, 2, 3, 4, 5, 6)`. -/
theorem C9_even_monotone_witness :
    0 < 1 ∧ 1 ≤ 2 ∧ 3 ≤ 4 ∧ 5 ≤ 6 ∧
    ((∀ p p2, slot_count "linear" 1 3 5 = some p →
       slot_count "linear" 2 4 6 = some p2 → p % 2 = 0 ∧ p ≤ p2) ∧
     (∀ p p2, slot_count "fm" 1 3 5 = some p →
       slot_count "fm" 2 4 6 = some p2 → p % 2 = 0 ∧ p ≤ p2) ∧
     (∀ p p2, slot_count "ffm" 1 3 5 = some p →
       slot_count "ffm" 2 4 6 = some p2 → p % 2 = 0 ∧ p ≤ p2)) :=
  ⟨by decide, by decide, by decide, by decide,
    C9_even_monotone 1 2 3 4 5 6 (by decide) (by decide) (by decide) (by decide)⟩

/-- C10: fresh creation is fully deterministic with no external randomness
input — whatever entropy `env1`/`env2` two process environments hold, two
fresh constructions with identical `(variant, lossKind, featureCount,
fieldCount, factorCount)` coincide, in particular their buffers are
slot-for-slot identical, because `std::default_random_engine generator;`
is default-constructed with the fixed default seed inside `Initialize_w`
on every call. -/
theorem C10_deterministic (env1 env2 : Nat) (sf lf : String) (nf nfield nK : Nat) :
    Model.Init env1 sf lf nf nfield nK = Model.Init env2 sf lf nf nfield nK ∧
    (∀ m1 m2, Model.Init env1 sf lf nf nfield nK = Except.ok m1 →
      Model.Init env2 sf lf nf nfield nK = Except.ok m2 →
      m1.param_w = m2.param_w) := by
  have h : Model.Init env1 sf lf nf nfield nK = Model.Init env2 sf lf nf nfield nK := rfl
  refine ⟨h, fun m1 m2 hm1 hm2 => ?_⟩
  rw [h, hm2] at hm1
  cases hm1
  rfl

/-- Witness for C10: two fm constructions under different environment
entropy (3 and 9) coincide. -/
theorem C10_deterministic_witness :
    Model.Init 3 "fm" "squared" 2 0 2 = Model.Init 9 "fm" "squared" 2 0 2 ∧
    (⟨"fm", "squared", 2, 0, 2, 8,
      [Val.rand defaultEngineSeed 2 0, Val.one, Val.rand defaultEngineSeed 2 1,
       Val.one, Val.rand defaultEngineSeed 2 2, Val.one,
       Val.rand defaultEngineSeed 2 3, Val.one]⟩ : Model).param_w =
    (⟨"fm", "squared", 2, 0, 2, 8,
      [Val.rand defaultEngineSeed 2 0, Val.one, Val.rand defaultEngineSeed 2 1,
       Val.one, Val.rand defaultEngineSeed 2 2, Val.one,
       Val.rand defaultEngineSeed 2 3, Val.one]⟩ : Model).param_w :=
  ⟨(C10_deterministic 3 9 "fm" "squared" 2 0 2).1,
   (C10_deterministic 3 9 "fm" "squared" 2 0 2).2
     ⟨"fm", "squared", 2, 0, 2, 8,
       [Val.rand defaultEngineSeed 2 0, Val.one, Val.rand defaultEngineSeed 2 1,
        Val.one, Val.rand defaultEngineSeed 2 2, Val.one,
        Val.rand defaultEngineSeed 2 3, Val.one]⟩
     ⟨"fm", "squared", 2, 0, 2, 8,
       [Val.rand defaultEngineSeed 2 0, Val.one, Val.rand defaultEngineSeed 2 1,
        Val.one, Val.rand defaultEngineSeed 2 2, Val.one,
        Val.rand defaultEngineSeed 2 3, Val.one]⟩ rfl rfl⟩

end XLearn
